import Mathlib

/-!
The operator `project_mercator` (src/projections.cpp)

A shallow embedding of the projection operator of `src/projections.cpp` and of
the library routines it calls, followed by the properties of the operator.

* The operator itself is embedded statement by statement in a small monad that
  carries the raised Python exception and the list of operations performed so
  far, so that "what was executed before the failure" is a property of the run.
* The numeric code is written once, over an arbitrary scalar type `α` with the
  arithmetic operations and the C math functions (`Libm`).  It is plain
  executable code, and it runs on doubles with `instLibmFloat`.  The theorems
  on the kind gate hold for every such scalar type, doubles included.
* The program computes with IEEE doubles.  The instance of exact real
  arithmetic, `instLibmReal`, is an idealisation of them: it has no rounding,
  no infinities, no NaN and no signed zeros.  A theorem stated for it describes
  the program only where the double computation is exact as well (the origin,
  the antimeridian, the range of the longitude).  The theorems whose name
  starts with `exact_` are identities of real functions and are not statements
  about the doubles the program returns.
-/

namespace spherely

/-! ## Data model -/

/-- Modelled from the spec: the enumeration `GeographyType` is declared in
`geography.hpp`, which is not part of the sources.  The only member the
operator names is `Point`; the siblings are the kinds the spec lists. -/
inductive GeographyType
  | Point
  | LineString
  | Polygon
  | MultiPoint
  | GeographyCollection
  deriving DecidableEq, Repr

/-- The vector type `S2Point`: three coordinates. -/
structure S2Point (α : Type) where
  x : α
  y : α
  z : α

/-- The planar type `R2Point`: two coordinates. -/
structure R2Point (α : Type) where
  x : α
  y : α

/-- Modelled from the spec: the class `Geography` is declared in `geography.hpp`,
which is not part of the sources.  A value carries its kind tag and the storage
that `s2point()` reads once the value is viewed as a `Point`; for the other
kinds that storage is whatever the downcast would reinterpret. -/
structure Geography (α : Type) where
  m_geog_type : GeographyType
  m_s2point : S2Point α

/-- The result of `static_cast<Point*>(geog)`: the same object seen as a `Point`. -/
structure Point (α : Type) where
  geog : Geography α

/-- The handle `PyObjectGeography`: a Python object that owns a geography. -/
structure PyObjectGeography (α : Type) where
  m_geog : Geography α

/-- The Python exceptions the operator can raise; `py::value_error` is the only one. -/
inductive PyError
  | value_error (msg : String)
  deriving DecidableEq, Repr

/-- The operations of the body of `project_mercator` that touch the input or
build the output, in the vocabulary of the source. -/
inductive Event
  | as_geog_ptr
  | geog_type
  | static_cast_Point
  | s2point
  | Project
  | make_tuple
  deriving DecidableEq, Repr

/-- A computation that may raise a Python exception and records the operations
it performs.  The record survives the exception. -/
abbrev Py (β : Type) : Type := ExceptT PyError (StateM (List Event)) β

/-- Record one operation. -/
def emit (e : Event) : Py Unit :=
  modify fun done => done ++ [e]

/-- The outcome of a run from an empty record: the value or the exception, and
the operations performed. -/
def Py.outcome {β : Type} (m : Py β) : Except PyError β × List Event :=
  (ExceptT.run m).run []

/-! ## The C math library -/

/-- Modelled from the spec: the functions of `<cmath>` and the constant `M_PI`
used by the S2 routines below (`sqrt`, `atan2`, `sin`, `cos`, `log`) and by the
equations of the specification (`asin`, `tan`); they belong to the C library,
not to the sources. -/
class Libm (α : Type) where
  M_PI : α
  sqrt : α → α
  atan2 : α → α → α
  sin : α → α
  cos : α → α
  log : α → α
  asin : α → α
  tan : α → α

section Code

variable {α : Type} [Add α] [Sub α] [Mul α] [Div α] [OfScientific α] [Libm α]

/-! ## The S2 routines called by the operator -/

/-- The pair `S2LatLng`: latitude and longitude in radians. -/
structure S2LatLng (α : Type) where
  lat : α
  lng : α

/-- Modelled from the spec: `S2LatLng::Latitude` of the S2 library (not part of
the sources), `atan2(p[2] + 0.0, sqrt(p[0]*p[0] + p[1]*p[1]))`. -/
def S2LatLng.Latitude (p : S2Point α) : α :=
  Libm.atan2 (p.z + 0.0) (Libm.sqrt (p.x * p.x + p.y * p.y))

/-- Modelled from the spec: `S2LatLng::Longitude` of the S2 library (not part of
the sources), `atan2(p[1] + 0.0, p[0] + 0.0)`. -/
def S2LatLng.Longitude (p : S2Point α) : α :=
  Libm.atan2 (p.y + 0.0) (p.x + 0.0)

/-- Modelled from the spec: the constructor `S2LatLng(const S2Point&)` of the S2
library (not part of the sources). -/
def S2LatLng.ofS2Point (p : S2Point α) : S2LatLng α :=
  ⟨S2LatLng.Latitude p, S2LatLng.Longitude p⟩

/-- Modelled from the spec: `S2LatLng::ToPoint` of the S2 library (not part of
the sources), the unit vector of a latitude and a longitude. -/
def S2LatLng.ToPoint (ll : S2LatLng α) : S2Point α :=
  let phi := ll.lat
  let theta := ll.lng
  let cosphi := Libm.cos phi
  ⟨Libm.cos theta * cosphi, Libm.sin theta * cosphi, Libm.sin phi⟩

/-- The state of an `S2::MercatorProjection`. -/
structure MercatorProjection (α : Type) where
  x_wrap_ : α
  to_radians_ : α
  from_radians_ : α

/-- Modelled from the spec: the constructor `S2::MercatorProjection(max_x)` of the
S2 library (not part of the sources). -/
def MercatorProjection.ofMaxX (max_x : α) : MercatorProjection α :=
  ⟨2.0 * max_x, Libm.M_PI / max_x, max_x / Libm.M_PI⟩

/-- Modelled from the spec: `S2::MercatorProjection::FromLatLng` of the S2 library
(not part of the sources): `y` is `0.5 * log((1 + sin_phi) / (1 - sin_phi))`,
and both coordinates are scaled by `max_x / M_PI`. -/
def MercatorProjection.FromLatLng (proj : MercatorProjection α) (ll : S2LatLng α) :
    R2Point α :=
  let sin_phi := Libm.sin ll.lat
  let y := 0.5 * Libm.log ((1.0 + sin_phi) / (1.0 - sin_phi))
  ⟨proj.from_radians_ * ll.lng, proj.from_radians_ * y⟩

/-- Modelled from the spec: `S2::MercatorProjection::Project` of the S2 library
(not part of the sources), `FromLatLng(S2LatLng(p))`. -/
def MercatorProjection.Project (proj : MercatorProjection α) (p : S2Point α) :
    R2Point α :=
  proj.FromLatLng (S2LatLng.ofS2Point p)

/-! ## The accessors of the geography model -/

/-- The accessor `PyObjectGeography::as_geog_ptr()`. -/
def PyObjectGeography.as_geog_ptr (obj : PyObjectGeography α) : Py (Geography α) := do
  emit Event.as_geog_ptr
  pure obj.m_geog

/-- The accessor `Geography::geog_type()`. -/
def Geography.geog_type (geog : Geography α) : Py GeographyType := do
  emit Event.geog_type
  pure geog.m_geog_type

/-- The downcast `static_cast<Point*>(geog)`. -/
def static_cast_Point (geog : Geography α) : Py (Point α) := do
  emit Event.static_cast_Point
  pure ⟨geog⟩

/-- The accessor `Point::s2point()`. -/
def Point.s2point (point : Point α) : Py (S2Point α) := do
  emit Event.s2point
  pure point.geog.m_s2point

/-- The call `projection.Project(s2point)`, recorded. -/
def MercatorProjection.ProjectCall (proj : MercatorProjection α) (p : S2Point α) :
    Py (R2Point α) := do
  emit Event.Project
  pure (proj.Project p)

/-- The call `std::make_tuple(x, y)`, recorded. -/
def make_tuple (x y : α) : Py (α × α) := do
  emit Event.make_tuple
  pure (x, y)

/-! ## The operator -/

/-- The function `project_mercator` of `src/projections.cpp`, lines 16-30. -/
def project_mercator (obj : PyObjectGeography α) : Py (α × α) := do
  let geog ← obj.as_geog_ptr
  if (← geog.geog_type) ≠ GeographyType.Point then
    throw (PyError.value_error "test")
  let point ← static_cast_Point geog
  let s2point ← point.s2point
  let projection : MercatorProjection α := MercatorProjection.ofMaxX 20037508.3427892
  let r2point ← projection.ProjectCall s2point
  let x := r2point.x
  let y := r2point.y
  make_tuple x y

/-! ## The equations of the specification -/

/-- The forward Web-Mercator equations in the words of the specification:
`φ = asin(z)`, `λ = atan2(y, x)`, `x = R · λ / π` and
`y = R · ln(tan(π/4 + φ/2)) / π`, the pair with `x` first. -/
def spec_web_mercator (R : α) (v : S2Point α) : α × α :=
  let phi := Libm.asin v.z
  let lam := Libm.atan2 v.y v.x
  (R * lam / Libm.M_PI, R * Libm.log (Libm.tan (Libm.M_PI / 4.0 + phi / 2.0)) / Libm.M_PI)

end Code

/-! ## Exact real arithmetic -/

/-- The C math functions on the real numbers: an idealisation of the doubles of
the program, without rounding.  `atan2 y x` is the angle in `(-π, π]` of the
point `(x, y)`, and `0` at the origin.  A division by zero and the logarithm of
zero have the conventional value `0` of Mathlib here, not an infinity, so the
two poles project to `(0, 0)` under this instance and to `(0, ±inf)` on doubles:
nothing about the poles is read off this instance. -/
noncomputable instance instLibmReal : Libm ℝ where
  M_PI := Real.pi
  sqrt := Real.sqrt
  atan2 := fun y x => Complex.arg ⟨x, y⟩
  sin := Real.sin
  cos := Real.cos
  log := Real.log
  asin := Real.arcsin
  tan := Real.tan

/-- A geography of kind `Point` at a vector, wrapped in its Python handle. -/
def pointObject {α : Type} (p : S2Point α) : PyObjectGeography α :=
  ⟨⟨GeographyType.Point, p⟩⟩

/-- The C math functions on IEEE doubles, the scalars the compiled code runs
with; `M_PI` is the decimal expansion of the C macro.  The theorems on the kind
gate hold for every instance, this one included; the theorems on the transform
are about exact real arithmetic, not about this instance. -/
instance instLibmFloat : Libm Float where
  M_PI := 3.14159265358979323846
  sqrt := Float.sqrt
  atan2 := Float.atan2
  sin := Float.sin
  cos := Float.cos
  log := Float.log
  asin := Float.asin
  tan := Float.tan

/-! ## Running the operator -/

section Run

variable {α : Type} [Add α] [Sub α] [Mul α] [Div α] [OfScientific α] [Libm α]

/-- The run on a value whose kind is not `Point`: the exception, after the
handle and the kind have been read and nothing else. -/
theorem outcome_of_ne_Point (obj : PyObjectGeography α)
    (h : obj.m_geog.m_geog_type ≠ GeographyType.Point) :
    (project_mercator obj).outcome
      = (Except.error (PyError.value_error "test"),
          [Event.as_geog_ptr, Event.geog_type]) := by
  simp [project_mercator, Py.outcome, PyObjectGeography.as_geog_ptr, Geography.geog_type,
    emit, h]
  rfl

/-- The run on a value whose kind is `Point`: the two coordinates of the
projected vector, after all six operations. -/
theorem outcome_of_Point (obj : PyObjectGeography α)
    (h : obj.m_geog.m_geog_type = GeographyType.Point) :
    (project_mercator obj).outcome
      = (Except.ok
          (((MercatorProjection.ofMaxX (20037508.3427892 : α)).Project obj.m_geog.m_s2point).x,
           ((MercatorProjection.ofMaxX (20037508.3427892 : α)).Project obj.m_geog.m_s2point).y),
          [Event.as_geog_ptr, Event.geog_type, Event.static_cast_Point, Event.s2point,
            Event.Project, Event.make_tuple]) := by
  simp [project_mercator, Py.outcome, PyObjectGeography.as_geog_ptr, Geography.geog_type,
    static_cast_Point, Point.s2point, MercatorProjection.ProjectCall, make_tuple, emit, h]
  rfl

/-- The first projected coordinate does not read the third coordinate of the
vector: two vectors with the same `x` and `y` project to the same first
coordinate, for every scalar type and every math library. -/
theorem Project_x_of_xy (max_x : α) (x y z z2 : α) :
    ((MercatorProjection.ofMaxX max_x).Project ⟨x, y, z⟩).x
      = ((MercatorProjection.ofMaxX max_x).Project ⟨x, y, z2⟩).x :=
  rfl

end Run

/-! ## The projection in exact real arithmetic -/

section RealModel

open Real

/-- The longitude of a vector is the argument of `x + y i`. -/
theorem Longitude_real (p : S2Point ℝ) :
    S2LatLng.Longitude p = Complex.arg ⟨p.x, p.y⟩ := by
  norm_num [S2LatLng.Longitude, Libm.atan2]

/-- The latitude of a vector is the argument of `sqrt (x² + y²) + z i`. -/
theorem Latitude_real (p : S2Point ℝ) :
    S2LatLng.Latitude p = Complex.arg ⟨√(p.x * p.x + p.y * p.y), p.z⟩ := by
  norm_num [S2LatLng.Latitude, Libm.atan2, Libm.sqrt]

/-- The latitude of a unit vector is the arc sine of its third coordinate. -/
theorem Latitude_eq_arcsin (p : S2Point ℝ) (hp : p.x ^ 2 + p.y ^ 2 + p.z ^ 2 = 1) :
    S2LatLng.Latitude p = arcsin p.z := by
  rw [Latitude_real, Complex.arg_of_re_nonneg (Real.sqrt_nonneg _)]
  have hnn : 0 ≤ p.x * p.x + p.y * p.y :=
    add_nonneg (mul_self_nonneg _) (mul_self_nonneg _)
  have habs : Complex.abs ⟨√(p.x * p.x + p.y * p.y), p.z⟩ = 1 := by
    rw [Complex.abs_apply, Complex.normSq_mk, Real.mul_self_sqrt hnn]
    rw [show p.x * p.x + p.y * p.y + p.z * p.z = 1 by nlinarith [hp]]
    exact Real.sqrt_one
  rw [habs]
  simp

/-- The first projected coordinate: the longitude scaled by `max_x / π`. -/
theorem Project_x_real (max_x : ℝ) (p : S2Point ℝ) :
    ((MercatorProjection.ofMaxX max_x).Project p).x
      = max_x / π * S2LatLng.Longitude p := by
  simp [MercatorProjection.Project, MercatorProjection.FromLatLng, MercatorProjection.ofMaxX,
    S2LatLng.ofS2Point, Libm.M_PI]

/-- The second projected coordinate: half the logarithm of
`(1 + sin φ) / (1 - sin φ)` at the latitude `φ`, scaled by `max_x / π`. -/
theorem Project_y_real (max_x : ℝ) (p : S2Point ℝ) :
    ((MercatorProjection.ofMaxX max_x).Project p).y
      = max_x / π * (1 / 2 * Real.log ((1 + Real.sin (S2LatLng.Latitude p))
          / (1 - Real.sin (S2LatLng.Latitude p)))) := by
  simp [MercatorProjection.Project, MercatorProjection.FromLatLng, MercatorProjection.ofMaxX,
    S2LatLng.ofS2Point, Libm.M_PI, Libm.sin, Libm.log]
  norm_num

/-- The equations of the specification over the reals, written out. -/
theorem spec_web_mercator_real (R : ℝ) (v : S2Point ℝ) :
    spec_web_mercator R v
      = (R * Complex.arg ⟨v.x, v.y⟩ / π,
          R * Real.log (Real.tan (π / 4 + Real.arcsin v.z / 2)) / π) := by
  norm_num [spec_web_mercator, Libm.asin, Libm.atan2, Libm.M_PI, Libm.log, Libm.tan]

/-- Half the logarithm of `(1 + sin φ) / (1 - sin φ)` is the logarithm of
`tan (π/4 + φ/2)` for a latitude strictly between the poles. -/
theorem half_log_eq_log_tan (φ : ℝ) (h1 : -(π / 2) < φ) (h2 : φ < π / 2) :
    1 / 2 * Real.log ((1 + Real.sin φ) / (1 - Real.sin φ))
      = Real.log (Real.tan (π / 4 + φ / 2)) := by
  obtain ⟨a, ha⟩ : ∃ a : ℝ, a = π / 4 + φ / 2 := ⟨_, rfl⟩
  rw [← ha]
  have hpi : 0 < π := Real.pi_pos
  have ha0 : 0 < a := by rw [ha]; linarith
  have ha1 : a < π / 2 := by rw [ha]; linarith
  have hsin : 0 < Real.sin a := Real.sin_pos_of_pos_of_lt_pi ha0 (by linarith)
  have hcos : 0 < Real.cos a := Real.cos_pos_of_mem_Ioo ⟨by linarith, ha1⟩
  have hφ : Real.sin φ = -Real.cos (2 * a) := by
    rw [← Real.sin_sub_pi_div_two]
    congr 1
    rw [ha]; ring
  have hnum : 1 + Real.sin φ = 2 * Real.sin a ^ 2 := by
    rw [hφ, Real.cos_two_mul]
    nlinarith [Real.sin_sq_add_cos_sq a]
  have hden : 1 - Real.sin φ = 2 * Real.cos a ^ 2 := by
    rw [hφ, Real.cos_two_mul]
    ring
  have hratio : (1 + Real.sin φ) / (1 - Real.sin φ) = Real.tan a ^ 2 := by
    rw [hnum, hden, Real.tan_eq_sin_div_cos]
    field_simp
    ring
  rw [hratio, Real.log_pow]
  push_cast
  ring

/-- In exact real arithmetic, for every vector off the polar axis (of norm one
or not): the latitude that the projection computes lies strictly between the
poles, and the second projected coordinate is the logarithm of
`tan (π/4 + φ/2)` at that latitude `φ`, scaled by `max_x / π`. -/
theorem Project_y_eq_log_tan_Latitude (max_x : ℝ) (p : S2Point ℝ)
    (h : 0 < p.x * p.x + p.y * p.y) :
    -(π / 2) < S2LatLng.Latitude p
      ∧ S2LatLng.Latitude p < π / 2
      ∧ ((MercatorProjection.ofMaxX max_x).Project p).y
        = max_x / π * Real.log (Real.tan (π / 4 + S2LatLng.Latitude p / 2)) := by
  have hlat : |S2LatLng.Latitude p| < π / 2 := by
    rw [Latitude_real, Complex.abs_arg_lt_pi_div_two_iff]
    exact Or.inl (Real.sqrt_pos.mpr h)
  have h1 := (abs_lt.mp hlat).1
  have h2 := (abs_lt.mp hlat).2
  refine ⟨h1, h2, ?_⟩
  rw [Project_y_real, half_log_eq_log_tan _ h1 h2]

/-- For a unit vector with latitude strictly between the poles, the sine of the
latitude is the third coordinate, it lies strictly between `-1` and `1`, and the
quotient passed to the logarithm is positive with a nonzero denominator. -/
theorem log_argument_pos (p : S2Point ℝ) (hp : p.x ^ 2 + p.y ^ 2 + p.z ^ 2 = 1)
    (h1 : -(π / 2) < arcsin p.z) (h2 : arcsin p.z < π / 2) :
    Real.sin (S2LatLng.Latitude p) = p.z
      ∧ 0 < 1 - Real.sin (S2LatLng.Latitude p)
      ∧ 0 < (1 + Real.sin (S2LatLng.Latitude p)) / (1 - Real.sin (S2LatLng.Latitude p)) := by
  have hz1 : -1 < p.z := Real.neg_pi_div_two_lt_arcsin.mp h1
  have hz2 : p.z < 1 := Real.arcsin_lt_pi_div_two.mp h2
  have hsin : Real.sin (S2LatLng.Latitude p) = p.z := by
    rw [Latitude_eq_arcsin p hp, Real.sin_arcsin hz1.le hz2.le]
  rw [hsin]
  exact ⟨rfl, by linarith, div_pos (by linarith) (by linarith)⟩

/-- At the two poles the quotient passed to the logarithm degenerates: at
`(0, 0, 1)` the latitude is `π/2` and the denominator `1 - sin φ` is zero, at
`(0, 0, -1)` the latitude is `-π/2` and the numerator `1 + sin φ` is zero. -/
theorem pole_quotient_degenerate :
    S2LatLng.Latitude (⟨0, 0, 1⟩ : S2Point ℝ) = π / 2
      ∧ 1 - Real.sin (S2LatLng.Latitude (⟨0, 0, 1⟩ : S2Point ℝ)) = 0
      ∧ S2LatLng.Latitude (⟨0, 0, -1⟩ : S2Point ℝ) = -(π / 2)
      ∧ 1 + Real.sin (S2LatLng.Latitude (⟨0, 0, -1⟩ : S2Point ℝ)) = 0 := by
  have hn : S2LatLng.Latitude (⟨0, 0, 1⟩ : S2Point ℝ) = π / 2 := by
    rw [Latitude_eq_arcsin _ (by norm_num)]
    exact Real.arcsin_one
  have hs : S2LatLng.Latitude (⟨0, 0, -1⟩ : S2Point ℝ) = -(π / 2) := by
    rw [Latitude_eq_arcsin _ (by norm_num)]
    exact Real.arcsin_neg_one
  refine ⟨hn, ?_, hs, ?_⟩
  · rw [hn, Real.sin_pi_div_two, sub_self]
  · rw [hs, Real.sin_neg, Real.sin_pi_div_two]
    norm_num

end RealModel

/-! ## The kind gate -/

section Gate

variable {α : Type} [Add α] [Sub α] [Mul α] [Div α] [OfScientific α] [Libm α]

/-- C1: for every geography value whose kind is not `Point`, `project_mercator`
raises the value error and extracts no coordinate: the run stops right after the
kind has been read, so neither the downcast to `Point`, nor `s2point()`, nor the
projection, nor the construction of the pair is performed; no pair is returned,
and the outcome is the same whatever the storage behind the value holds. -/
theorem project_mercator_rejects_non_point (obj : PyObjectGeography α)
    (h : obj.m_geog.m_geog_type ≠ GeographyType.Point) :
    (project_mercator obj).outcome
        = (Except.error (PyError.value_error "test"), [Event.as_geog_ptr, Event.geog_type])
      ∧ Event.static_cast_Point ∉ (project_mercator obj).outcome.2
      ∧ Event.s2point ∉ (project_mercator obj).outcome.2
      ∧ Event.Project ∉ (project_mercator obj).outcome.2
      ∧ Event.make_tuple ∉ (project_mercator obj).outcome.2
      ∧ (∀ xy : α × α, (project_mercator obj).outcome.1 ≠ Except.ok xy)
      ∧ ∀ q : S2Point α,
          (project_mercator (⟨⟨obj.m_geog.m_geog_type, q⟩⟩ : PyObjectGeography α)).outcome
            = (project_mercator obj).outcome := by
  have hrun := outcome_of_ne_Point obj h
  refine ⟨hrun, ?_, ?_, ?_, ?_, ?_, ?_⟩
  · rw [hrun]; simp
  · rw [hrun]; simp
  · rw [hrun]; simp
  · rw [hrun]; simp
  · intro xy hxy
    rw [hrun] at hxy
    cases hxy
  · intro q
    rw [hrun]
    exact outcome_of_ne_Point _ h

/-- C1, at a line string over the doubles. -/
theorem project_mercator_rejects_non_point_witness :
    (⟨⟨GeographyType.LineString, ⟨0, 1, 0⟩⟩⟩ : PyObjectGeography Float).m_geog.m_geog_type
        ≠ GeographyType.Point
      ∧ (project_mercator
            (⟨⟨GeographyType.LineString, ⟨0, 1, 0⟩⟩⟩ : PyObjectGeography Float)).outcome
          = (Except.error (PyError.value_error "test"),
              [Event.as_geog_ptr, Event.geog_type]) :=
  ⟨by decide, (project_mercator_rejects_non_point _ (by decide)).1⟩

/-- C2: the kind check is the only validation.  For every geography value the
exception is raised if and only if the kind is not `Point`, and then it is the
value error; a value of kind `Point` always yields a pair, and the pair is made
of the two coordinates of the vector returned by `Project`, unchanged (no
clamping, no test of the value), whatever these are.  This holds for every
scalar type and every math library, so also for a vector at a pole. -/
theorem project_mercator_error_iff_not_point (obj : PyObjectGeography α) :
    ((∃ e, (project_mercator obj).outcome.1 = Except.error e)
        ↔ obj.m_geog.m_geog_type ≠ GeographyType.Point)
      ∧ ((∃ xy, (project_mercator obj).outcome.1 = Except.ok xy)
        ↔ obj.m_geog.m_geog_type = GeographyType.Point)
      ∧ (obj.m_geog.m_geog_type = GeographyType.Point →
          (project_mercator obj).outcome.1
            = Except.ok
                (((MercatorProjection.ofMaxX (20037508.3427892 : α)).Project
                    obj.m_geog.m_s2point).x,
                 ((MercatorProjection.ofMaxX (20037508.3427892 : α)).Project
                    obj.m_geog.m_s2point).y))
      ∧ (∀ p : S2Point α,
          (project_mercator (⟨⟨GeographyType.Point, p⟩⟩ : PyObjectGeography α)).outcome.1
            = Except.ok
                (((MercatorProjection.ofMaxX (20037508.3427892 : α)).Project p).x,
                 ((MercatorProjection.ofMaxX (20037508.3427892 : α)).Project p).y)) := by
  refine ⟨?_, ?_, ?_, ?_⟩
  · constructor
    · rintro ⟨e, he⟩ hk
      rw [outcome_of_Point obj hk] at he
      cases he
    · intro hk
      exact ⟨PyError.value_error "test", by rw [outcome_of_ne_Point obj hk]⟩
  · constructor
    · rintro ⟨xy, hxy⟩
      by_contra hk
      rw [outcome_of_ne_Point obj hk] at hxy
      cases hxy
    · intro hk
      exact ⟨_, by rw [outcome_of_Point obj hk]⟩
  · intro hk
    rw [outcome_of_Point obj hk]
  · intro p
    rw [outcome_of_Point _ rfl]

/-- C2, at the vector `(0, 0, 1)` of the north pole over the doubles: the pair
returned is the pair of coordinates that `Project` computes there. -/
theorem project_mercator_error_iff_not_point_witness :
    (project_mercator (pointObject (⟨0, 0, 1⟩ : S2Point Float))).outcome.1
      = Except.ok
          (((MercatorProjection.ofMaxX (20037508.3427892 : Float)).Project ⟨0, 0, 1⟩).x,
           ((MercatorProjection.ofMaxX (20037508.3427892 : Float)).Project ⟨0, 0, 1⟩).y) :=
  (project_mercator_error_iff_not_point
    (pointObject (⟨0, 0, 1⟩ : S2Point Float))).2.2.2 ⟨0, 0, 1⟩

end Gate

/-! ## The transform -/

section Transform

open Real

/-- In exact real arithmetic only, and only for a vector that is exactly of norm
one with latitude strictly between the poles: the pair returned is the pair of
the forward Web-Mercator equations of the specification.  This is an identity
of real functions, not a statement about the doubles of the program: a stored
vector is of norm one only up to rounding, and on doubles the two sides differ
by rounding. -/
theorem exact_eq_spec_web_mercator (obj : PyObjectGeography ℝ)
    (hk : obj.m_geog.m_geog_type = GeographyType.Point)
    (hunit : obj.m_geog.m_s2point.x ^ 2 + obj.m_geog.m_s2point.y ^ 2
      + obj.m_geog.m_s2point.z ^ 2 = 1)
    (hlo : -(π / 2) < Real.arcsin obj.m_geog.m_s2point.z)
    (hhi : Real.arcsin obj.m_geog.m_s2point.z < π / 2) :
    (project_mercator obj).outcome.1
        = Except.ok (spec_web_mercator 20037508.3427892 obj.m_geog.m_s2point)
      ∧ spec_web_mercator 20037508.3427892 obj.m_geog.m_s2point
        = (20037508.3427892 * Complex.arg ⟨obj.m_geog.m_s2point.x, obj.m_geog.m_s2point.y⟩ / π,
            20037508.3427892
              * Real.log (Real.tan (π / 4 + Real.arcsin obj.m_geog.m_s2point.z / 2)) / π)
      ∧ S2LatLng.Latitude obj.m_geog.m_s2point = Real.arcsin obj.m_geog.m_s2point.z
      ∧ S2LatLng.Longitude obj.m_geog.m_s2point
        = Complex.arg ⟨obj.m_geog.m_s2point.x, obj.m_geog.m_s2point.y⟩ := by
  refine ⟨?_, spec_web_mercator_real _ _, Latitude_eq_arcsin _ hunit, Longitude_real _⟩
  rw [outcome_of_Point obj hk, spec_web_mercator_real]
  rw [Project_x_real, Project_y_real, Latitude_eq_arcsin _ hunit,
    half_log_eq_log_tan _ hlo hhi, Longitude_real]
  refine congrArg Except.ok (Prod.ext ?_ ?_)
  · dsimp only
    ring
  · dsimp only
    ring

/-- The identity of `exact_eq_spec_web_mercator` at the real vector `(3/5, 0, 4/5)`. -/
theorem exact_eq_spec_web_mercator_at :
    (project_mercator (pointObject (⟨3 / 5, 0, 4 / 5⟩ : S2Point ℝ))).outcome.1
      = Except.ok (spec_web_mercator 20037508.3427892 ⟨3 / 5, 0, 4 / 5⟩) :=
  (exact_eq_spec_web_mercator (pointObject ⟨3 / 5, 0, 4 / 5⟩) rfl
    (by simp only [pointObject]; norm_num)
    (Real.neg_pi_div_two_lt_arcsin.mpr (by simp only [pointObject]; norm_num))
    (Real.arcsin_lt_pi_div_two.mpr (by simp only [pointObject]; norm_num))).1

/-- C4: the vector of longitude 0 and latitude 0 is `(1, 0, 0)`, and
`project_mercator` maps the point at that vector to `(0, 0)`; in particular
each component is within `1e-9` of zero. -/
theorem project_mercator_origin :
    S2LatLng.ToPoint (⟨0, 0⟩ : S2LatLng ℝ) = ⟨1, 0, 0⟩
      ∧ (project_mercator (pointObject (⟨1, 0, 0⟩ : S2Point ℝ))).outcome.1 = Except.ok (0, 0)
      ∧ ∃ x y : ℝ,
          (project_mercator (pointObject (S2LatLng.ToPoint (⟨0, 0⟩ : S2LatLng ℝ)))).outcome.1
              = Except.ok (x, y)
            ∧ |x - 0| ≤ 1e-9 ∧ |y - 0| ≤ 1e-9 := by
  have hpt : S2LatLng.ToPoint (⟨0, 0⟩ : S2LatLng ℝ) = ⟨1, 0, 0⟩ := by
    simp [S2LatLng.ToPoint, Libm.cos, Libm.sin]
  have hlat : S2LatLng.Latitude (⟨1, 0, 0⟩ : S2Point ℝ) = 0 := by
    rw [Latitude_eq_arcsin _ (by norm_num)]
    simp
  have hlng : S2LatLng.Longitude (⟨1, 0, 0⟩ : S2Point ℝ) = 0 := by
    rw [Longitude_real]
    have h1 : (⟨1, 0⟩ : ℂ) = 1 := rfl
    rw [h1, Complex.arg_one]
  have hrun : (project_mercator (pointObject (⟨1, 0, 0⟩ : S2Point ℝ))).outcome.1
      = Except.ok (0, 0) := by
    rw [outcome_of_Point _ rfl]
    simp only [pointObject]
    rw [Project_x_real, Project_y_real, hlat, hlng]
    simp
  refine ⟨hpt, hrun, 0, 0, ?_, ?_, ?_⟩
  · rw [hpt, hrun]
  · norm_num
  · norm_num

/-- The longitude of the vector built from a latitude strictly between the poles
and a longitude in `(-π, π]` is that longitude. -/
theorem Longitude_ToPoint (phi lam : ℝ) (h1 : -(π / 2) < phi) (h2 : phi < π / 2)
    (h3 : -π < lam) (h4 : lam ≤ π) :
    S2LatLng.Longitude (S2LatLng.ToPoint (⟨phi, lam⟩ : S2LatLng ℝ)) = lam := by
  have hcos : 0 < Real.cos phi := Real.cos_pos_of_mem_Ioo ⟨h1, h2⟩
  rw [Longitude_real]
  have hz : (⟨(S2LatLng.ToPoint (⟨phi, lam⟩ : S2LatLng ℝ)).x,
      (S2LatLng.ToPoint (⟨phi, lam⟩ : S2LatLng ℝ)).y⟩ : ℂ)
      = ((Real.cos phi : ℝ) : ℂ) * (Complex.cos lam + Complex.sin lam * Complex.I) := by
    apply Complex.ext
    · simp [S2LatLng.ToPoint, Libm.cos, Libm.sin, ← Complex.ofReal_cos, ← Complex.ofReal_sin,
        mul_comm]
    · simp [S2LatLng.ToPoint, Libm.cos, Libm.sin, ← Complex.ofReal_cos, ← Complex.ofReal_sin,
        mul_comm]
  rw [hz, Complex.arg_mul_cos_add_sin_mul_I hcos ⟨h3, h4⟩]

/-- C5: the vector of longitude `π` and latitude 0 is `(-1, 0, 0)`, and
`project_mercator` maps the point at that vector to `(20037508.3427892, 0)`: the
absolute value of `x` is within `1e-3` of the scale constant, `y` is 0, and the
pair is the `(20037508.34, 0.0)` of the scenario up to `1e-2`. -/
theorem project_mercator_antimeridian :
    S2LatLng.ToPoint (⟨0, π⟩ : S2LatLng ℝ) = ⟨-1, 0, 0⟩
      ∧ ∃ x y : ℝ,
          (project_mercator (pointObject (S2LatLng.ToPoint (⟨0, π⟩ : S2LatLng ℝ)))).outcome.1
              = Except.ok (x, y)
            ∧ |(|x|) - 20037508.3427892| ≤ 1e-3
            ∧ y = 0
            ∧ x = 20037508.3427892
            ∧ |x - 20037508.34| ≤ 1e-2 := by
  have hpt : S2LatLng.ToPoint (⟨0, π⟩ : S2LatLng ℝ) = ⟨-1, 0, 0⟩ := by
    simp [S2LatLng.ToPoint, Libm.cos, Libm.sin]
  have hlat : S2LatLng.Latitude (⟨-1, 0, 0⟩ : S2Point ℝ) = 0 := by
    rw [Latitude_eq_arcsin _ (by norm_num)]
    simp
  have hlng : S2LatLng.Longitude (⟨-1, 0, 0⟩ : S2Point ℝ) = π := by
    rw [Longitude_real]
    exact Complex.arg_eq_pi_iff.mpr ⟨by norm_num, rfl⟩
  have hrun : (project_mercator (pointObject (⟨-1, 0, 0⟩ : S2Point ℝ))).outcome.1
      = Except.ok (20037508.3427892, 0) := by
    rw [outcome_of_Point _ rfl]
    simp only [pointObject]
    rw [Project_x_real, Project_y_real, hlat, hlng]
    rw [div_mul_cancel₀ _ Real.pi_ne_zero]
    simp
  refine ⟨hpt, 20037508.3427892, 0, ?_, ?_, rfl, rfl, ?_⟩
  · rw [hpt, hrun]
  · norm_num [abs_of_pos]
  · norm_num [abs_of_pos]

/-- In exact real arithmetic only: for a fixed latitude strictly between the
poles and two longitudes `lam1 < lam2` in `(-π, π)`, the `x` at `lam1` is
strictly less than the `x` at `lam2`.  This is not a statement about the
doubles of the program, where two neighbouring longitudes can give the same
`x`. -/
theorem exact_x_strictMono (phi lam1 lam2 : ℝ)
    (h1 : -(π / 2) < phi) (h2 : phi < π / 2)
    (h3 : -π < lam1) (h4 : lam1 < lam2) (h5 : lam2 < π) :
    ∃ x1 y1 x2 y2 : ℝ,
      (project_mercator (pointObject (S2LatLng.ToPoint (⟨phi, lam1⟩ : S2LatLng ℝ)))).outcome.1
          = Except.ok (x1, y1)
        ∧ (project_mercator
            (pointObject (S2LatLng.ToPoint (⟨phi, lam2⟩ : S2LatLng ℝ)))).outcome.1
          = Except.ok (x2, y2)
        ∧ x1 < x2 := by
  refine ⟨_, _, _, _, by rw [outcome_of_Point _ rfl], by rw [outcome_of_Point _ rfl], ?_⟩
  simp only [pointObject]
  rw [Project_x_real, Project_x_real,
    Longitude_ToPoint phi lam1 h1 h2 h3 (by linarith),
    Longitude_ToPoint phi lam2 h1 h2 (by linarith) h5.le]
  have hscale : (0 : ℝ) < 20037508.3427892 / π := div_pos (by norm_num) Real.pi_pos
  exact mul_lt_mul_of_pos_left h4 hscale

/-- The inequality of `exact_x_strictMono` at latitude 0 and the real longitudes
0 and 1. -/
theorem exact_x_strictMono_at :
    ∃ x1 y1 x2 y2 : ℝ,
      (project_mercator (pointObject (S2LatLng.ToPoint (⟨0, 0⟩ : S2LatLng ℝ)))).outcome.1
          = Except.ok (x1, y1)
        ∧ (project_mercator (pointObject (S2LatLng.ToPoint (⟨0, 1⟩ : S2LatLng ℝ)))).outcome.1
          = Except.ok (x2, y2)
        ∧ x1 < x2 :=
  exact_x_strictMono 0 0 1
    (by linarith [Real.pi_pos]) (by linarith [Real.pi_pos]) (by linarith [Real.pi_pos])
    (by norm_num) (by linarith [Real.pi_gt_three])

/-- In exact real arithmetic only, and only for a vector that is exactly of norm
one with latitude strictly between the poles: on the vector `(x0, y0, -z0)` the
operator returns `(x, -y)` when it returns `(x, y)` on `(x0, y0, z0)`; the `x`
of any point is a function of its longitude alone and the `y` a function of its
latitude alone.  The relation between the two `y` is not a statement about the
doubles of the program, where they can differ in the last place. -/
theorem exact_mirror (obj : PyObjectGeography ℝ)
    (hk : obj.m_geog.m_geog_type = GeographyType.Point)
    (hunit : obj.m_geog.m_s2point.x ^ 2 + obj.m_geog.m_s2point.y ^ 2
      + obj.m_geog.m_s2point.z ^ 2 = 1)
    (hlo : -(π / 2) < Real.arcsin obj.m_geog.m_s2point.z)
    (hhi : Real.arcsin obj.m_geog.m_s2point.z < π / 2) :
    (∃ x y : ℝ,
        (project_mercator obj).outcome.1 = Except.ok (x, y)
          ∧ (project_mercator (pointObject (⟨obj.m_geog.m_s2point.x, obj.m_geog.m_s2point.y,
                -obj.m_geog.m_s2point.z⟩ : S2Point ℝ))).outcome.1 = Except.ok (x, -y))
      ∧ 0 < (1 + Real.sin (S2LatLng.Latitude obj.m_geog.m_s2point))
            / (1 - Real.sin (S2LatLng.Latitude obj.m_geog.m_s2point))
      ∧ ∃ f g : ℝ → ℝ, ∀ v : S2Point ℝ,
          (project_mercator (pointObject v)).outcome.1
            = Except.ok (f (S2LatLng.Longitude v), g (S2LatLng.Latitude v)) := by
  refine ⟨?_, ?_⟩
  · refine ⟨_, _, by rw [outcome_of_Point obj hk], ?_⟩
    rw [outcome_of_Point _ rfl]
    simp only [pointObject]
    rw [Project_x_real, Project_y_real, Project_x_real, Project_y_real,
      Latitude_eq_arcsin _ hunit,
      Latitude_eq_arcsin (⟨obj.m_geog.m_s2point.x, obj.m_geog.m_s2point.y,
        -obj.m_geog.m_s2point.z⟩ : S2Point ℝ) (by simpa using hunit)]
    have hlng : S2LatLng.Longitude (⟨obj.m_geog.m_s2point.x, obj.m_geog.m_s2point.y,
        -obj.m_geog.m_s2point.z⟩ : S2Point ℝ) = S2LatLng.Longitude obj.m_geog.m_s2point := by
      rw [Longitude_real, Longitude_real]
    rw [hlng]
    simp only [Real.arcsin_neg, Real.sin_neg]
    have hinv : (1 + -Real.sin (Real.arcsin obj.m_geog.m_s2point.z))
          / (1 - -Real.sin (Real.arcsin obj.m_geog.m_s2point.z))
        = ((1 + Real.sin (Real.arcsin obj.m_geog.m_s2point.z))
          / (1 - Real.sin (Real.arcsin obj.m_geog.m_s2point.z)))⁻¹ := by
      rw [inv_div, sub_neg_eq_add, ← sub_eq_add_neg]
    rw [hinv, Real.log_inv]
    congr 2
    ring
  refine ⟨(log_argument_pos _ hunit hlo hhi).2.2, ?_⟩
  · refine ⟨fun lam => 20037508.3427892 / π * lam,
      fun phi => 20037508.3427892 / π
        * (1 / 2 * Real.log ((1 + Real.sin phi) / (1 - Real.sin phi))), fun v => ?_⟩
    rw [outcome_of_Point _ rfl]
    simp only [pointObject]
    rw [Project_x_real, Project_y_real]

/-- The relation of `exact_mirror` at the real vector `(3/5, 0, 4/5)` and its
mirror image `(3/5, 0, -4/5)`. -/
theorem exact_mirror_at :
    ∃ x y : ℝ,
      (project_mercator (pointObject (⟨3 / 5, 0, 4 / 5⟩ : S2Point ℝ))).outcome.1
          = Except.ok (x, y)
        ∧ (project_mercator (pointObject (⟨3 / 5, 0, -(4 / 5)⟩ : S2Point ℝ))).outcome.1
          = Except.ok (x, -y) :=
  (exact_mirror (pointObject ⟨3 / 5, 0, 4 / 5⟩) rfl
    (by simp only [pointObject]; norm_num)
    (Real.neg_pi_div_two_lt_arcsin.mpr (by simp only [pointObject]; norm_num))
    (Real.arcsin_lt_pi_div_two.mpr (by simp only [pointObject]; norm_num))).1

end Transform

end spherely
